import Mathlib

/-!
Verification of the JWT bearer-token authorization core of the coffeeshop
resource server (`backend/src/auth/auth.py`).

The Python module is embedded shallowly:

* `AuthError` (code, description, status_code) becomes a Lean structure.
* Python exceptions escaping a function are an `Except` error value; the
  uncaught `IndexError` that `parts[0]` can raise in `get_token_auth_header`
  is a distinguished constructor `PyExc.indexError`.
* The external `jose` library is abstracted by a `Token` carrying the parsed
  unverified-header `kid` and a `decode` function from RSA key material to a
  `DecodeOutcome` (success with payload / ExpiredSignatureError /
  JWTClaimsError / any other exception).  A concrete model `joseDecode` of
  the library's documented behaviour instantiates it for end-to-end runs.
* The network fetch of the JWKS document is an explicit `List JwksKey`
  argument (one fresh fetch per verification, as the code performs).
-/

/-- Configured Auth0 domain, from the module-level constant. -/
def AUTH0_DOMAIN : String := "dev-7l04rrne.us.auth0.com"

/-- Configured audience, from the module-level constant. -/
def API_AUDIENCE : String := "coffeeshop"

/-- Issuer string the verifier passes to the decoder:
the code computes it as the string https followed by the domain and a slash. -/
def EXPECTED_ISSUER : String := "https://" ++ AUTH0_DOMAIN ++ "/"

/-- Embedding of the `AuthError` exception: error code, human description and
HTTP status code. -/
structure AuthError where
  code : String
  description : String
  status_code : Nat
deriving DecidableEq, Repr

/-- Python exceptions that can escape the auth functions: a raised
`AuthError`, or the unhandled `IndexError` from `parts[0]` on an empty
split result. -/
inductive PyExc where
  | authError (e : AuthError)
  | indexError
deriving DecidableEq, Repr

/-- Decoded JWT payload: the claims the module reads.  The `permissions`
field is an `Option` because `check_permissions` tests for the key's
presence in the payload dict. -/
structure Payload where
  aud : String
  iss : String
  exp : Nat
  permissions : Option (List String)
deriving DecidableEq, Repr

/-- One entry of the fetched JWKS document (the fields the code copies). -/
structure JwksKey where
  kty : String
  kid : String
  us : String
  n : String
  e : String
deriving DecidableEq, Repr

/-- The `rsa_key` dict the loop in `verify_decode_jwt` builds from a JWKS
entry. -/
structure RsaKey where
  kty : String
  kid : String
  us : String
  n : String
  e : String
deriving DecidableEq, Repr

/-- Outcome of the external `jose.jwt.decode` call: the decoded payload, or
one of the exceptions the code distinguishes (`ExpiredSignatureError`,
`JWTClaimsError`, or any other exception). -/
inductive DecodeOutcome where
  | ok (payload : Payload)
  | expiredSignature
  | claimsError
  | otherError
deriving DecidableEq, Repr

/-- A bearer token as `verify_decode_jwt` observes it: the `kid` field of its
unverified header (`none` when the header lacks the field), and the result of
`jose.jwt.decode` against a given RSA key (audience, issuer and algorithms
are fixed by the module constants, so they are baked into the function). -/
structure Token where
  kid : Option String
  decode : RsaKey → DecodeOutcome

/-- One folding step of whitespace splitting: a whitespace character opens a
fresh (possibly empty) piece, any other character extends the current one. -/
def splitStep (c : Char) (acc : List (List Char)) : List (List Char) :=
  if c.isWhitespace then [] :: acc
  else
    match acc with
    | [] => [[c]]
    | w :: ws => (c :: w) :: ws

/-- Python `str.split()` with no separator: split on whitespace runs and drop
empty pieces (implemented structurally over the character list so that it
evaluates by reduction). -/
def pySplit (s : String) : List String :=
  ((s.data.foldr splitStep []).filter (fun w => w ≠ [])).map (fun w => ⟨w⟩)

/-- Python `str.lower()` on the ASCII alphabet: lower-case every character. -/
def pyLower (s : String) : String := ⟨s.data.map Char.toLower⟩

/-- Embedding of `get_token_auth_header`.  The argument is
`request.headers.get('Authorization', None)`; `none` and the empty string are
both falsy in Python, hence both hit `authorization_header_missing`.  A
non-empty all-whitespace value splits to `[]` and `parts[0]` raises an
uncaught `IndexError`. -/
def get_token_auth_header (auth : Option String) : Except PyExc String :=
  match auth with
  | none =>
      .error (.authError ⟨"authorization_header_missing",
                          "Authorization header is expected.", 401⟩)
  | some a =>
      if a = "" then
        .error (.authError ⟨"authorization_header_missing",
                            "Authorization header is expected.", 401⟩)
      else
        match pySplit a with
        | [] => .error .indexError
        | [p0] =>
            if pyLower p0 ≠ "bearer" then
              .error (.authError ⟨"invalid_header",
                "Authorization header must start with \"Bearer\".", 401⟩)
            else
              .error (.authError ⟨"invalid_header", "Token not found.", 401⟩)
        | p0 :: t :: rest =>
            if pyLower p0 ≠ "bearer" then
              .error (.authError ⟨"invalid_header",
                "Authorization header must start with \"Bearer\".", 401⟩)
            else if rest ≠ [] then
              .error (.authError ⟨"invalid_header",
                "Authorization header must be bearer token.", 401⟩)
            else
              .ok t

/-- Embedding of `check_permissions`: 400 `invalid_claims` when the payload
has no `permissions` key, 403 `unauthorized` when the required permission is
not in the list, `true` otherwise. -/
def check_permissions (permission : String) (payload : Payload) :
    Except AuthError Bool :=
  match payload.permissions with
  | none =>
      .error ⟨"invalid_claims", "Permissions not included in JWT.", 400⟩
  | some perms =>
      if permission ∈ perms then .ok true
      else .error ⟨"unauthorized", "Unauthorized.", 403⟩

/-- The key-selection loop of `verify_decode_jwt`: `rsa_key` starts as the
empty dict and is overwritten by every JWKS entry whose `kid` matches, so the
last match wins; `none` models the dict staying empty (falsy). -/
def matchRsaKey (keys : List JwksKey) (kid : String) : Option RsaKey :=
  keys.foldl
    (fun acc key =>
      if key.kid = kid then some ⟨key.kty, key.kid, key.us, key.n, key.e⟩
      else acc)
    none

/-- Embedding of `verify_decode_jwt`, with the fetched JWKS as an explicit
argument (the code fetches it fresh on every call). -/
def verify_decode_jwt (token : Token) (jwks : List JwksKey) :
    Except AuthError Payload :=
  match token.kid with
  | none =>
      .error ⟨"invalid_header", "Authorization malformed.", 401⟩
  | some kid =>
      match matchRsaKey jwks kid with
      | some rsa_key =>
          match token.decode rsa_key with
          | .ok payload => .ok payload
          | .expiredSignature =>
              .error ⟨"token_expired", "Token expired.", 401⟩
          | .claimsError =>
              .error ⟨"invalid_claims",
                "Incorrect claims. Please, check the audience and issuer.", 401⟩
          | .otherError =>
              .error ⟨"invalid_header",
                "Unable to parse authentication token.", 400⟩
      | none =>
          .error ⟨"invalid_header", "Unable to find the appropriate key.", 400⟩

/-- Embedding of the wrapper produced by `requires_auth(permission)` around a
handler `f`.  The extractor runs outside the `try`, so its exceptions
propagate unchanged; the bare `except:` around `verify_decode_jwt` turns any
verifier failure into the generic 401 `unauthorized` error; a
`check_permissions` failure propagates as its own `AuthError`; on success the
handler receives the decoded payload as its first argument. -/
def requires_auth {α : Type} (permission : String) (f : Payload → α)
    (auth : Option String) (verify : String → Except AuthError Payload) :
    Except PyExc α :=
  match get_token_auth_header auth with
  | .error e => .error e
  | .ok token =>
      match verify token with
      | .error _ =>
          .error (.authError ⟨"unauthorized", "Permissions not found", 401⟩)
      | .ok payload =>
          match check_permissions permission payload with
          | .error e => .error (.authError e)
          | .ok _ => .ok (f payload)

/-- Modelled from the spec: the behaviour of the external `jose.jwt.decode`
call (not part of this repository).  Per the spec it cryptographically
verifies the signature against the supplied key material, then validates
expiry, audience and issuer, classifying failures as expired signature,
claims mismatch, or other parse-and-verify failure.  A token is represented
by its payload and the public material of the key that signed it; the
signature verifies against a key exactly when that material matches. -/
structure JwtData where
  payload : Payload
  signN : String
  signE : String
deriving DecidableEq, Repr

/-- Modelled from the spec: outcome of `jose.jwt.decode` on token data `d`
with key `key`, expected audience and issuer, at time `now`. -/
def joseDecode (d : JwtData) (audience issuer : String) (now : Nat)
    (key : RsaKey) : DecodeOutcome :=
  if key.n = d.signN ∧ key.e = d.signE then
    if d.payload.exp ≤ now then .expiredSignature
    else if d.payload.aud ≠ audience then .claimsError
    else if d.payload.iss ≠ issuer then .claimsError
    else .ok d.payload
  else .otherError

/-- Classifier used to refute C7 at a concrete input: whether the extractor
outcome is a raised `AuthError` (as opposed to success or an uncaught
Python exception). -/
def raisesAuthError (r : Except PyExc String) : Bool :=
  match r with
  | .error (.authError _) => true
  | _ => false

/-- C8: with no Authorization header present, the extractor fails with
401 `authorization_header_missing`. -/
theorem missing_header_fails_401_missing :
    get_token_auth_header none =
      .error (.authError ⟨"authorization_header_missing",
                          "Authorization header is expected.", 401⟩) := rfl

/-- C10: an Authorization header equal to the empty string is falsy in
Python, so the extractor treats it exactly like an absent header and fails
with 401 `authorization_header_missing`, never `invalid_header`. -/
theorem empty_header_treated_as_missing :
    get_token_auth_header (some "") = get_token_auth_header none ∧
    get_token_auth_header (some "") =
      .error (.authError ⟨"authorization_header_missing",
                          "Authorization header is expected.", 401⟩) :=
  ⟨rfl, rfl⟩

/-- C7 counterexample: the header value consisting of a single space splits
into fewer than 2 whitespace-separated parts, yet the extractor does not
fail with any `AuthError` — `parts[0]` raises an uncaught `IndexError`
instead, refuting the claim that every such value yields 401
`invalid_header`. -/
theorem whitespace_header_escapes_as_index_error :
    (pySplit " ").length < 2 ∧
    get_token_auth_header (some " ") = .error PyExc.indexError ∧
    raisesAuthError (get_token_auth_header (some " ")) = false :=
  ⟨by decide, rfl, rfl⟩

/-- C7 (amended): for every header value that splits into at least one
whitespace-separated part, if the first part is not the case-insensitive
literal Bearer, or the number of parts is not exactly 2, the extractor
fails with a 401 `invalid_header` error. -/
theorem extractor_rejects_malformed_nonempty (a p0 : String)
    (rest : List String) (h : pySplit a = p0 :: rest)
    (hbad : pyLower p0 ≠ "bearer" ∨ (p0 :: rest).length ≠ 2) :
    ∃ d, get_token_auth_header (some a) =
      .error (.authError ⟨"invalid_header", d, 401⟩) := by
  have hne : a ≠ "" := by
    intro he
    rw [he] at h
    exact List.noConfusion h
  rw [show get_token_auth_header (some a)
        = if a = "" then
            .error (.authError ⟨"authorization_header_missing",
                                "Authorization header is expected.", 401⟩)
          else
            match pySplit a with
            | [] => .error .indexError
            | [p0] =>
                if pyLower p0 ≠ "bearer" then
                  .error (.authError ⟨"invalid_header",
                    "Authorization header must start with \"Bearer\".", 401⟩)
                else
                  .error (.authError ⟨"invalid_header",
                    "Token not found.", 401⟩)
            | p0 :: t :: rest =>
                if pyLower p0 ≠ "bearer" then
                  .error (.authError ⟨"invalid_header",
                    "Authorization header must start with \"Bearer\".", 401⟩)
                else if rest ≠ [] then
                  .error (.authError ⟨"invalid_header",
                    "Authorization header must be bearer token.", 401⟩)
                else
                  .ok t
      from rfl]
  rw [if_neg hne, h]
  by_cases hb : pyLower p0 = "bearer"
  · cases rest with
    | nil =>
        exact ⟨"Token not found.", by simp [hb]⟩
    | cons t rest2 =>
        cases rest2 with
        | nil =>
            rcases hbad with hbad | hbad
            · exact absurd hb hbad
            · exact absurd rfl hbad
        | cons u rest3 =>
            exact ⟨"Authorization header must be bearer token.", by simp [hb]⟩
  · cases rest with
    | nil =>
        exact ⟨"Authorization header must start with \"Bearer\".",
               by simp [hb]⟩
    | cons t rest2 =>
        exact ⟨"Authorization header must start with \"Bearer\".",
               by simp [hb]⟩

/-- Witness for the amended C7 at a concrete malformed header. -/
theorem extractor_rejects_malformed_nonempty_check :
    ∃ d, get_token_auth_header (some "Token abc") =
      .error (.authError ⟨"invalid_header", d, 401⟩) :=
  extractor_rejects_malformed_nonempty "Token abc" "Token" ["abc"]
    (by decide) (Or.inl (by decide))

/-- C6: `check_permissions` fails with 400 `invalid_claims` when the payload
carries no permissions key, fails with 403 `unauthorized` when the required
permission is not in the list, and returns `true` otherwise. -/
theorem check_permissions_cases (permission : String) (payload : Payload) :
    (payload.permissions = none →
       check_permissions permission payload =
         .error ⟨"invalid_claims", "Permissions not included in JWT.", 400⟩) ∧
    (∀ perms, payload.permissions = some perms → permission ∉ perms →
       check_permissions permission payload =
         .error ⟨"unauthorized", "Unauthorized.", 403⟩) ∧
    (∀ perms, payload.permissions = some perms → permission ∈ perms →
       check_permissions permission payload = .ok true) := by
  refine ⟨?_, ?_, ?_⟩
  · intro hnone
    simp [check_permissions, hnone]
  · intro perms hsome hnotin
    simp [check_permissions, hsome, hnotin]
  · intro perms hsome hin
    simp [check_permissions, hsome, hin]

/-- Witness for C6 at concrete payloads covering all three branches. -/
theorem check_permissions_cases_check :
    check_permissions "get:drinks" ⟨"a", "i", 0, none⟩ =
      .error ⟨"invalid_claims", "Permissions not included in JWT.", 400⟩ ∧
    check_permissions "get:drinks" ⟨"a", "i", 0, some ["post:drinks"]⟩ =
      .error ⟨"unauthorized", "Unauthorized.", 403⟩ ∧
    check_permissions "get:drinks" ⟨"a", "i", 0, some ["get:drinks"]⟩ =
      .ok true :=
  ⟨(check_permissions_cases "get:drinks" ⟨"a", "i", 0, none⟩).1 rfl,
   (check_permissions_cases "get:drinks"
      ⟨"a", "i", 0, some ["post:drinks"]⟩).2.1 ["post:drinks"] rfl
      (by decide),
   (check_permissions_cases "get:drinks"
      ⟨"a", "i", 0, some ["get:drinks"]⟩).2.2 ["get:drinks"] rfl (by decide)⟩

/-- Concrete JWKS entry used in end-to-end runs. -/
def keyC : JwksKey := ⟨"RSA", "key1", "sig", "mod1", "AQAB"⟩

/-- Concrete fetched key set used in end-to-end runs. -/
def jwksC : List JwksKey := [keyC]

/-- Concrete payload of the well-formed token: correct audience and issuer,
expiry in the future, carrying the get-drinks-detail permission. -/
def payloadC : Payload :=
  ⟨API_AUDIENCE, EXPECTED_ISSUER, 2000, some ["get:drinks-detail"]⟩

/-- Current time of the end-to-end runs (before the token expiry). -/
def nowC : Nat := 1000

/-- Concrete well-formed token: declares the kid of `keyC`, is signed by the
key material of `keyC`, and decodes per the jose model. -/
def tokenC : Token :=
  ⟨some "key1",
   joseDecode ⟨payloadC, "mod1", "AQAB"⟩ API_AUDIENCE EXPECTED_ISSUER nowC⟩

/-- Concrete Authorization header carrying the well-formed bearer token. -/
def authHeaderC : Option String := some "Bearer good.jwt.sig"

/-- Verifier as the gate calls it for the concrete scenario: the extracted
token string resolves to `tokenC`, verified against the freshly fetched
`jwksC`. -/
def verifyC : String → Except AuthError Payload :=
  fun _ => verify_decode_jwt tokenC jwksC

/-- C1: the verifier returns a decoded payload only when the token's header
declares a kid, a key in the fetched set matches that kid, and the full
jose decode (signature, audience, issuer, expiry validation) succeeds
against the matched key; in every other case the result is an `AuthError` —
no partially-validated claims are ever returned. -/
theorem verify_full_validation_gate (tok : Token) (jwks : List JwksKey) :
    (∀ payload, verify_decode_jwt tok jwks = Except.ok payload →
       ∃ kid rsa_key, tok.kid = some kid ∧
         matchRsaKey jwks kid = some rsa_key ∧
         tok.decode rsa_key = DecodeOutcome.ok payload) ∧
    ((∃ payload, verify_decode_jwt tok jwks = Except.ok payload) ∨
       ∃ e : AuthError, verify_decode_jwt tok jwks = Except.error e) := by
  cases hk : tok.kid with
  | none =>
      refine ⟨fun p hp => ?_, Or.inr ⟨⟨"invalid_header",
        "Authorization malformed.", 401⟩, by simp [verify_decode_jwt, hk]⟩⟩
      simp [verify_decode_jwt, hk] at hp
  | some kid =>
      cases hm : matchRsaKey jwks kid with
      | none =>
          refine ⟨fun p hp => ?_, Or.inr ⟨⟨"invalid_header",
            "Unable to find the appropriate key.", 400⟩,
            by simp [verify_decode_jwt, hk, hm]⟩⟩
          simp [verify_decode_jwt, hk, hm] at hp
      | some rsa_key =>
          cases hd : tok.decode rsa_key with
          | ok payload =>
              refine ⟨fun p hp => ?_,
                Or.inl ⟨payload, by simp [verify_decode_jwt, hk, hm, hd]⟩⟩
              have hv : verify_decode_jwt tok jwks = Except.ok payload := by
                simp [verify_decode_jwt, hk, hm, hd]
              rw [hv] at hp
              injection hp with hpp
              subst hpp
              exact ⟨kid, rsa_key, rfl, hm, hd⟩
          | expiredSignature =>
              refine ⟨fun p hp => ?_, Or.inr ⟨⟨"token_expired",
                "Token expired.", 401⟩,
                by simp [verify_decode_jwt, hk, hm, hd]⟩⟩
              simp [verify_decode_jwt, hk, hm, hd] at hp
          | claimsError =>
              refine ⟨fun p hp => ?_, Or.inr ⟨⟨"invalid_claims",
                "Incorrect claims. Please, check the audience and issuer.",
                401⟩, by simp [verify_decode_jwt, hk, hm, hd]⟩⟩
              simp [verify_decode_jwt, hk, hm, hd] at hp
          | otherError =>
              refine ⟨fun p hp => ?_, Or.inr ⟨⟨"invalid_header",
                "Unable to parse authentication token.", 400⟩,
                by simp [verify_decode_jwt, hk, hm, hd]⟩⟩
              simp [verify_decode_jwt, hk, hm, hd] at hp

/-- Witness for C1: the concrete well-formed token is accepted, and the
acceptance indeed comes with a matched key and a successful full decode. -/
theorem verify_full_validation_gate_check :
    ∃ kid rsa_key, tokenC.kid = some kid ∧
      matchRsaKey jwksC kid = some rsa_key ∧
      tokenC.decode rsa_key = DecodeOutcome.ok payloadC :=
  (verify_full_validation_gate tokenC jwksC).1 payloadC rfl

/-- C4: once key lookup has succeeded, the verifier classifies the decode
outcome into exactly three failures — expired signature gives 401
`token_expired`, a claims (audience or issuer) mismatch gives 401
`invalid_claims`, any other parse or verify failure gives 400
`invalid_header` — and a successful decode is returned unchanged. -/
theorem verify_failure_classification (tok : Token) (jwks : List JwksKey)
    (kid : String) (rsa_key : RsaKey)
    (hk : tok.kid = some kid) (hm : matchRsaKey jwks kid = some rsa_key) :
    (tok.decode rsa_key = DecodeOutcome.expiredSignature →
       verify_decode_jwt tok jwks =
         .error ⟨"token_expired", "Token expired.", 401⟩) ∧
    (tok.decode rsa_key = DecodeOutcome.claimsError →
       verify_decode_jwt tok jwks =
         .error ⟨"invalid_claims",
           "Incorrect claims. Please, check the audience and issuer.", 401⟩) ∧
    (tok.decode rsa_key = DecodeOutcome.otherError →
       verify_decode_jwt tok jwks =
         .error ⟨"invalid_header",
           "Unable to parse authentication token.", 400⟩) ∧
    (∀ payload, tok.decode rsa_key = DecodeOutcome.ok payload →
       verify_decode_jwt tok jwks = .ok payload) := by
  refine ⟨?_, ?_, ?_, ?_⟩ <;> intro h
  · simp [verify_decode_jwt, hk, hm, h]
  · simp [verify_decode_jwt, hk, hm, h]
  · simp [verify_decode_jwt, hk, hm, h]
  · intro hd
    simp [verify_decode_jwt, hk, hm, hd]

/-- Witness for C4: a concrete expired token (same key material as `keyC`,
expiry at or before `nowC`) is rejected with 401 `token_expired`. -/
theorem verify_failure_classification_check :
    verify_decode_jwt
      ⟨some "key1",
       joseDecode ⟨⟨API_AUDIENCE, EXPECTED_ISSUER, 900, some []⟩,
         "mod1", "AQAB"⟩ API_AUDIENCE EXPECTED_ISSUER nowC⟩ jwksC =
      .error ⟨"token_expired", "Token expired.", 401⟩ :=
  (verify_failure_classification
      ⟨some "key1",
       joseDecode ⟨⟨API_AUDIENCE, EXPECTED_ISSUER, 900, some []⟩,
         "mod1", "AQAB"⟩ API_AUDIENCE EXPECTED_ISSUER nowC⟩ jwksC
      "key1" ⟨"RSA", "key1", "sig", "mod1", "AQAB"⟩
      rfl (by decide)).1 (by decide)

/-- C5: a token whose unverified header has no kid is rejected with 401
`invalid_header` "Authorization malformed."; a token whose declared kid
matches no fetched key is rejected with 400 `invalid_header` "Unable to
find the appropriate key." — the asymmetric 401-versus-400 split between
the two similarly-named errors. -/
theorem verify_kid_and_key_lookup (tok : Token) (jwks : List JwksKey) :
    (tok.kid = none →
       verify_decode_jwt tok jwks =
         .error ⟨"invalid_header", "Authorization malformed.", 401⟩) ∧
    (∀ kid, tok.kid = some kid → matchRsaKey jwks kid = none →
       verify_decode_jwt tok jwks =
         .error ⟨"invalid_header",
           "Unable to find the appropriate key.", 400⟩) := by
  refine ⟨fun hk => ?_, fun kid hk hm => ?_⟩
  · simp [verify_decode_jwt, hk]
  · simp [verify_decode_jwt, hk, hm]

/-- Witness for C5: a kid-less token hits the 401 branch and a token with an
unknown kid hits the 400 branch, on the concrete key set. -/
theorem verify_kid_and_key_lookup_check :
    verify_decode_jwt ⟨none, fun _ => DecodeOutcome.otherError⟩ jwksC =
      .error ⟨"invalid_header", "Authorization malformed.", 401⟩ ∧
    verify_decode_jwt ⟨some "other-key", fun _ => DecodeOutcome.otherError⟩
        jwksC =
      .error ⟨"invalid_header", "Unable to find the appropriate key.", 400⟩ :=
  ⟨(verify_kid_and_key_lookup
      ⟨none, fun _ => DecodeOutcome.otherError⟩ jwksC).1 rfl,
   (verify_kid_and_key_lookup
      ⟨some "other-key", fun _ => DecodeOutcome.otherError⟩ jwksC).2
      "other-key" rfl (by decide)⟩

/-- C9: the verifier is a pure function of the token and the fetched key
set, so two runs on the same valid token whose independent key fetches
return equal key sets produce identical decoded claims. -/
theorem verify_deterministic_across_fetches (tok : Token)
    (jwks1 jwks2 : List JwksKey) (hfetch : jwks1 = jwks2)
    (p1 p2 : Payload)
    (h1 : verify_decode_jwt tok jwks1 = Except.ok p1)
    (h2 : verify_decode_jwt tok jwks2 = Except.ok p2) : p1 = p2 := by
  subst hfetch
  rw [h1] at h2
  exact Except.ok.inj h2

/-- Witness for C9: two runs of the verifier on the concrete valid token
against two equal fetches of the concrete key set agree. -/
theorem verify_deterministic_across_fetches_check :
    verify_decode_jwt tokenC jwksC = Except.ok payloadC ∧
    payloadC = payloadC :=
  ⟨rfl,
   verify_deterministic_across_fetches tokenC jwksC jwksC rfl
     payloadC payloadC rfl rfl⟩

/-- C2: the gate wraps any verifier failure — including the verifier's own
typed `AuthError`s — into the generic 401 `unauthorized` "Permissions not
found" error; extractor failures and permission-check failures propagate as
their own errors; and whenever the gate fails, the wrapped operation is
never invoked (the outcome is independent of the handler). -/
theorem gate_error_handling {α : Type} (permission : String)
    (f : Payload → α) (auth : Option String)
    (verify : String → Except AuthError Payload) :
    (∀ tok e, get_token_auth_header auth = .ok tok →
       verify tok = .error e →
       requires_auth permission f auth verify =
         .error (.authError ⟨"unauthorized", "Permissions not found", 401⟩)) ∧
    (∀ e, get_token_auth_header auth = .error e →
       requires_auth permission f auth verify = .error e) ∧
    (∀ tok payload e, get_token_auth_header auth = .ok tok →
       verify tok = .ok payload →
       check_permissions permission payload = .error e →
       requires_auth permission f auth verify = .error (.authError e)) ∧
    (∀ e, requires_auth permission f auth verify = .error e →
       ∀ g : Payload → α,
         requires_auth permission g auth verify = .error e) := by
  refine ⟨?_, ?_, ?_, ?_⟩
  · intro tok e hext hv
    simp [requires_auth, hext, hv]
  · intro e hext
    simp [requires_auth, hext]
  · intro tok payload e hext hv hp
    simp [requires_auth, hext, hv, hp]
  · intro e hfail g
    cases hext : get_token_auth_header auth with
    | error e0 =>
        simp [requires_auth, hext] at hfail ⊢
        exact hfail
    | ok tok =>
        cases hv : verify tok with
        | error e0 =>
            simp [requires_auth, hext, hv] at hfail ⊢
            exact hfail
        | ok payload =>
            cases hp : check_permissions permission payload with
            | error e0 =>
                simp [requires_auth, hext, hv, hp] at hfail ⊢
                exact hfail
            | ok b =>
                simp [requires_auth, hext, hv, hp] at hfail

/-- Witness for C2: with a well-formed header and a verifier that fails with
its own typed 401 `token_expired` error, the gate reports the generic 401
"Permissions not found" error instead. -/
theorem gate_error_handling_check :
    requires_auth "get:drinks-detail" (fun p => p) (some "Bearer t")
      (fun _ => .error ⟨"token_expired", "Token expired.", 401⟩) =
      .error (.authError ⟨"unauthorized", "Permissions not found", 401⟩) :=
  (gate_error_handling "get:drinks-detail" (fun p => p) (some "Bearer t")
      (fun _ => .error ⟨"token_expired", "Token expired.", 401⟩)).1
    "t" ⟨"token_expired", "Token expired.", 401⟩ rfl rfl

/-- C3: end-to-end, universally — for every request whose Authorization
header the extractor accepts as a well-formed Bearer token, where that token
declares the kid of a key present in the freshly fetched key set, is signed
by that key's material, has the configured audience and issuer, is unexpired,
and carries a permissions list containing the permission the gate requires,
the gate succeeds and invokes the wrapped operation with the decoded claims
as its first argument; with the same token, a gate requiring a permission
not in the list fails with 403 `unauthorized`. -/
theorem gate_end_to_end_universal {α : Type} (f : Payload → α)
    (auth : Option String) (tokStr : String)
    (jwks : List JwksKey) (tokenOf : String → Token)
    (d : JwtData) (kid : String) (rsa_key : RsaKey) (now : Nat)
    (perms : List String) (permGood permBad : String)
    (hext : get_token_auth_header auth = Except.ok tokStr)
    (htok : tokenOf tokStr =
      ⟨some kid, joseDecode d API_AUDIENCE EXPECTED_ISSUER now⟩)
    (hkey : matchRsaKey jwks kid = some rsa_key)
    (hsigN : rsa_key.n = d.signN) (hsigE : rsa_key.e = d.signE)
    (hexp : now < d.payload.exp)
    (haud : d.payload.aud = API_AUDIENCE)
    (hiss : d.payload.iss = EXPECTED_ISSUER)
    (hperms : d.payload.permissions = some perms)
    (hin : permGood ∈ perms) (hout : permBad ∉ perms) :
    requires_auth permGood f auth
        (fun s => verify_decode_jwt (tokenOf s) jwks) =
      Except.ok (f d.payload) ∧
    requires_auth permBad f auth
        (fun s => verify_decode_jwt (tokenOf s) jwks) =
      Except.error (.authError ⟨"unauthorized", "Unauthorized.", 403⟩) := by
  have hnexp : ¬ d.payload.exp ≤ now := Nat.not_le.mpr hexp
  have hverify : verify_decode_jwt (tokenOf tokStr) jwks =
      Except.ok d.payload := by
    rw [htok]
    simp [verify_decode_jwt, hkey, joseDecode, hsigN, hsigE, haud, hiss, hnexp]
  constructor
  · have hcp : check_permissions permGood d.payload = Except.ok true := by
      simp [check_permissions, hperms, hin]
    simp [requires_auth, hext, hverify, hcp]
  · have hcp : check_permissions permBad d.payload =
        Except.error ⟨"unauthorized", "Unauthorized.", 403⟩ := by
      simp [check_permissions, hperms, hout]
    simp [requires_auth, hext, hverify, hcp]

/-- Witness for C3 at the concrete scenario: the well-formed header carrying
the token signed by `keyC`, required permission in (respectively not in) its
permissions list. -/
theorem gate_end_to_end_universal_check :
    requires_auth "get:drinks-detail" (fun p => p) authHeaderC
        (fun s => verify_decode_jwt ((fun _ => tokenC) s) jwksC) =
      Except.ok payloadC ∧
    requires_auth "post:drinks" (fun p => p) authHeaderC
        (fun s => verify_decode_jwt ((fun _ => tokenC) s) jwksC) =
      Except.error (.authError ⟨"unauthorized", "Unauthorized.", 403⟩) :=
  gate_end_to_end_universal (fun p => p) authHeaderC "good.jwt.sig" jwksC
    (fun _ => tokenC) ⟨payloadC, "mod1", "AQAB"⟩ "key1"
    ⟨"RSA", "key1", "sig", "mod1", "AQAB"⟩ nowC ["get:drinks-detail"]
    "get:drinks-detail" "post:drinks" rfl rfl rfl rfl rfl (by decide) rfl rfl
    rfl (by decide) (by decide)
